import Mathlib

/-!
Shallow embedding of the `dubble` crate (`src/lib.rs`): a generic
double-buffer `DoubleBuffered<T>` holding a read buffer `rbuf` and a write
buffer `wbuf`.  Rust references returned by accessors are modelled as
lenses: a value-level getter for reads through the reference and an
explicit setter (or in-place modifier) for assignments through it.
`Clone::clone` on the in-scope value types is value-preserving, so it is
embedded as the identity; an effectful `Fn() -> T` closure is embedded by
explicit state threading.
-/

/-- Rust `Clone::clone`: produces an independent copy of the value.  In a
pure value model duplication is the identity. -/
def clone {T : Type} (x : T) : T := x

/-- `pub struct DoubleBuffered<T: Clone> { rbuf: T, wbuf: T }` -/
structure DoubleBuffered (T : Type) where
  rbuf : T
  wbuf : T

namespace DoubleBuffered

variable {T : Type}

/-- `pub fn new(value: T) -> Self`: both buffers are initialised with a
clone of `value`. -/
def new (value : T) : DoubleBuffered T :=
  { rbuf := clone value, wbuf := clone value }

/-- `pub fn construct_with<F: Fn() -> T>(constructor: F) -> Self` for a
pure constructor: each buffer is built by one invocation. -/
def construct_with (constructor : Unit → T) : DoubleBuffered T :=
  { rbuf := constructor (), wbuf := constructor () }

/-- `construct_with` for an effectful `Fn() -> T` closure, embedded with
explicit state threading: each invocation consumes the closure state and
returns the produced value together with the next state.  The first
invocation builds `rbuf`, the second builds `wbuf` (matching the field
initialisation order in the source). -/
def construct_withSt {S : Type} (constructor : S → T × S) (s : S) :
    DoubleBuffered T × S :=
  let r := constructor s
  let w := constructor r.2
  ({ rbuf := r.1, wbuf := w.1 }, w.2)

/-- `pub fn read(&self) -> &T`: the value seen through the returned
immutable reference, namely `rbuf`. -/
def read (self : DoubleBuffered T) : T :=
  self.rbuf

/-- `pub fn write(&mut self) -> &mut T`, getter component: the value seen
through the returned mutable reference, namely `wbuf`. -/
def write (self : DoubleBuffered T) : T :=
  self.wbuf

/-- `pub fn write(&mut self) -> &mut T`, setter component: assigning `v`
through the returned mutable reference replaces `wbuf` with `v`. -/
def writeSet (self : DoubleBuffered T) (v : T) : DoubleBuffered T :=
  { self with wbuf := v }

/-- In-place mutation of the write buffer through the reference returned
by `write()` (for example pushing onto a collection). -/
def writeMod (self : DoubleBuffered T) (f : T → T) : DoubleBuffered T :=
  { self with wbuf := f self.wbuf }

/-- `pub fn update(&mut self)`: `self.rbuf = self.wbuf.clone();`. -/
def update (self : DoubleBuffered T) : DoubleBuffered T :=
  { self with rbuf := clone self.wbuf }

/-- `pub fn upsert(&mut self, value: T)`:
`*self.write() = value; self.update();`. -/
def upsert (self : DoubleBuffered T) (value : T) : DoubleBuffered T :=
  update (writeSet self value)

/-- `pub fn unbuffer_read(self) -> T`: returns `self.rbuf`, discarding
the rest of the container. -/
def unbuffer_read (self : DoubleBuffered T) : T :=
  self.rbuf

/-- `pub fn unbuffer_write(self) -> T`: returns `self.wbuf`, discarding
the rest of the container. -/
def unbuffer_write (self : DoubleBuffered T) : T :=
  self.wbuf

/-- `impl Deref for DoubleBuffered`: `fn deref(&self) -> &T { self.read() }`. -/
def deref (self : DoubleBuffered T) : T :=
  read self

/-- `impl DerefMut for DoubleBuffered`, getter component:
`fn deref_mut(&mut self) -> &mut T { self.write() }`. -/
def deref_mut (self : DoubleBuffered T) : T :=
  write self

/-- `impl DerefMut for DoubleBuffered`, setter component: assigning `v`
through the mutable pass-through reference. -/
def deref_mutSet (self : DoubleBuffered T) (v : T) : DoubleBuffered T :=
  writeSet self v

/-- `impl<T: Default + Clone> Default for DoubleBuffered<T>`:
`fn default() -> Self { Self::construct_with(T::default) }`.  The
`T::default` constructor of the trait bound is passed explicitly. -/
def default (tdefault : Unit → T) : DoubleBuffered T :=
  construct_with tdefault

/-- `impl<I, T: Index<I> + Clone> Index<I> for DoubleBuffered<T>`:
`fn index(&self, index: I) -> &Self::Output { &self.rbuf[index] }`.  The
indexing operation of the trait bound on T is passed explicitly as `get`. -/
def index {I O : Type} (self : DoubleBuffered T) (get : T → I → O)
    (i : I) : O :=
  get self.rbuf i

/-- `impl<I, T: IndexMut<I> + Clone> IndexMut<I> for DoubleBuffered<T>`,
setter component: assigning `v` through
`fn index_mut(&mut self, index: I) -> &mut Self::Output { &mut self.wbuf[index] }`
replaces the element of `wbuf` at `i`.  The index-assignment operation of
the trait bound on T is passed explicitly as `set`. -/
def index_mutSet {I O : Type} (self : DoubleBuffered T) (set : T → I → O → T)
    (i : I) (v : O) : DoubleBuffered T :=
  { self with wbuf := set self.wbuf i v }

/-- Any sequence of assignments through the write reference leaves the
read buffer untouched. -/
theorem foldl_writeSet_rbuf (vs : List T) (db : DoubleBuffered T) :
    (vs.foldl writeSet db).rbuf = db.rbuf := by
  induction vs generalizing db with
  | nil => rfl
  | cons v vs ih => simpa [writeSet] using ih (writeSet db v)

end DoubleBuffered

/-- C1: Immutable pass-through dereference yields the read side and mutable
pass-through dereference yields the write side; a value written through the
mutable pass-through or through write() is not observed by read() or by the
immutable pass-through — they keep returning the prior read-side value
across any further sequence of writes, until update() is called (after
which the written value is visible). -/
theorem c1_deref_asymmetry_staging {T : Type} (db : DoubleBuffered T)
    (v : T) (vs : List T) :
    db.deref = db.read ∧
    db.read = db.rbuf ∧
    (db.deref_mutSet v).wbuf = v ∧
    db.deref_mut = db.wbuf ∧
    (db.writeSet v).read = db.read ∧
    ((db.deref_mutSet v).deref = db.read ∧
      (vs.foldl DoubleBuffered.writeSet (db.writeSet v)).deref = db.read) ∧
    (db.writeSet v).update.read = v := by
  refine ⟨rfl, rfl, rfl, rfl, rfl, ⟨rfl, ?_⟩, rfl⟩
  simpa [DoubleBuffered.deref, DoubleBuffered.read, DoubleBuffered.writeSet]
    using DoubleBuffered.foldl_writeSet_rbuf vs (db.writeSet v)

/-- C2: After update(), the read side equals (by duplication) the write
side as it was just before the call, and the write side itself is
unchanged by update(). -/
theorem c2_update_publishes_write_side {T : Type} (db : DoubleBuffered T) :
    db.update.rbuf = clone db.wbuf ∧
    db.update.rbuf = db.wbuf ∧
    db.update.wbuf = db.wbuf :=
  ⟨rfl, rfl, rfl⟩

/-- C3: upsert(v) equals assigning v through write() and then calling
update(); afterwards both read() and the write side equal v. -/
theorem c3_upsert_is_write_then_update {T : Type} (db : DoubleBuffered T)
    (v : T) :
    db.upsert v = (db.writeSet v).update ∧
    (db.upsert v).read = v ∧
    (db.upsert v).write = v :=
  ⟨rfl, rfl, rfl⟩

/-- C4: Immediately after new(v), read(), unbuffer_read and unbuffer_write
each return v. -/
theorem c4_new_initialises_both_sides {T : Type} (v : T) :
    (DoubleBuffered.new v).read = v ∧
    (DoubleBuffered.new v).unbuffer_read = v ∧
    (DoubleBuffered.new v).unbuffer_write = v :=
  ⟨rfl, rfl, rfl⟩

/-- C5: Immutable indexing reads from the read side; mutable indexing
targets the write side; a mutation through mutable indexing is invisible
to immutable indexing at every position until update() runs, after which
it is visible. -/
theorem c5_index_asymmetry {T I O : Type} (get : T → I → O)
    (set : T → I → O → T) (db : DoubleBuffered T) (i j : I) (v : O) :
    db.index get j = get db.rbuf j ∧
    (db.index_mutSet set i v).wbuf = set db.wbuf i v ∧
    (db.index_mutSet set i v).rbuf = db.rbuf ∧
    (db.index_mutSet set i v).index get j = db.index get j ∧
    (db.index_mutSet set i v).update.index get j = get (set db.wbuf i v) j :=
  ⟨rfl, rfl, rfl, rfl, rfl⟩

/-- C6: unbuffer_read returns the current read-side value without
publishing first: staged-but-unpublished mutations of the write side are
not reflected in the returned value, which does not depend on the write
side at all. -/
theorem c6_unbuffer_read_skips_staged {T : Type} (db : DoubleBuffered T)
    (f : T → T) (w : T) :
    db.unbuffer_read = db.rbuf ∧
    (db.writeMod f).unbuffer_read = db.unbuffer_read ∧
    (DoubleBuffered.mk db.rbuf w).unbuffer_read = db.unbuffer_read :=
  ⟨rfl, rfl, rfl⟩

/-- C7: Calling update() twice in a row with no intervening mutation of
the write side leaves read() after the second call equal to read() after
the first call. -/
theorem c7_update_idempotent {T : Type} (db : DoubleBuffered T) :
    db.update.update.read = db.update.read :=
  rfl

/-- C8: construct_with invokes the factory twice, assigning the first
invocation result to the read side and the second to the write side; if
the factory is pure and deterministic (its produced value does not depend
on the closure state) the two sides are equal after construction, and
otherwise no equality between the sides is promised (an impure factory can
produce unequal sides). -/
theorem c8_construct_with_two_invocations {T S : Type}
    (factory : S → T × S) (s : S) :
    (DoubleBuffered.construct_withSt factory s).1.rbuf = (factory s).1 ∧
    (DoubleBuffered.construct_withSt factory s).1.wbuf =
      (factory (factory s).2).1 ∧
    ((∀ a b : S, (factory a).1 = (factory b).1) →
      (DoubleBuffered.construct_withSt factory s).1.rbuf =
        (DoubleBuffered.construct_withSt factory s).1.wbuf) ∧
    (∃ (g : Nat → Nat × Nat) (t : Nat),
      (DoubleBuffered.construct_withSt g t).1.rbuf ≠
        (DoubleBuffered.construct_withSt g t).1.wbuf) := by
  refine ⟨rfl, rfl, ?_, ⟨fun n => (n, n + 1), 0, by decide⟩⟩
  intro hpure
  simpa [DoubleBuffered.construct_withSt] using hpure s (factory s).2

/-- Witness for C8 at a concrete pure stateful factory over Nat. -/
theorem c8_construct_with_two_invocations_witness :
    (DoubleBuffered.construct_withSt (fun n : Nat => (42, n + 1)) 0).1.rbuf =
      (DoubleBuffered.construct_withSt (fun n : Nat => (42, n + 1)) 0).1.wbuf :=
  (c8_construct_with_two_invocations (fun n : Nat => (42, n + 1)) 0).2.2.1
    (fun _ _ => rfl)

/-- C9: default() constructs the same container as construct_with applied
to the default-value constructor of T. -/
theorem c9_default_is_construct_with {T : Type} (tdefault : Unit → T) :
    DoubleBuffered.default tdefault = DoubleBuffered.construct_with tdefault ∧
    (DoubleBuffered.default tdefault).rbuf = tdefault () ∧
    (DoubleBuffered.default tdefault).wbuf = tdefault () :=
  ⟨rfl, rfl, rfl⟩

/-- C10: Extraction agrees with access: unbuffer_read returns exactly the
value read() exposes, and unbuffer_write returns exactly the value
write() exposes. -/
theorem c10_unbuffer_agrees_with_access {T : Type} (db : DoubleBuffered T) :
    db.unbuffer_read = db.read ∧
    db.unbuffer_write = db.write :=
  ⟨rfl, rfl⟩
